import Mathlib

/-!
Verification of the `full-stack-todo` backend (FastAPI task/auth service).

The embedding below follows the Python source:
  * `backend/app/models/task.py`   — Task model, TaskCreate / TaskUpdate schemas
  * `backend/app/routes/tasks.py`  — the five task endpoints
  * `backend/app/utils/security.py`— hash_password / verify_password
  * `backend/app/routes/auth.py`   — create_jwt_token
  * `backend/app/middleware/auth.py` — get_current_user_id

Timestamps are modelled as naturals (`datetime.utcnow()` becomes an explicit
`now : Nat` argument), the database session becomes an explicit `List Task`
store, and raising an `HTTPException` becomes returning `.error` in `Except`.
-/

namespace TodoApp

/-- HTTP-level errors raised by the endpoints (`HTTPException` status codes
in `routes/tasks.py` and FastAPI's request-validation failure). -/
inductive ApiError where
  | forbidden       -- 403, user_id path/token mismatch
  | notFound        -- 404, missing or not-owned task
  | validationErr   -- 422, request body failed schema validation
deriving DecidableEq, Repr

/-- The HTTP status code each error is surfaced as. -/
def ApiError.statusCode : ApiError → Nat
  | .forbidden => 403
  | .notFound => 404
  | .validationErr => 422

/-- `Task` database model (`models/task.py`, class `Task`): numeric id,
owner id, title, optional description, completion flag, timestamps. -/
structure Task where
  id : Nat
  user_id : String
  title : String
  description : Option String
  completed : Bool
  created_at : Nat
  updated_at : Nat
deriving DecidableEq, Repr

/-- The raw JSON body of a `POST .../tasks` request before Pydantic
validation: each field is `none` when absent from the body.  `TaskCreate`
(`models/task.py`) declares `title : str` (required, any string, the empty
string included), `description : Optional[str] = None`,
`completed : bool = False`. -/
structure TaskCreateBody where
  title : Option String
  description : Option (Option String)
  completed : Option Bool
deriving DecidableEq, Repr

/-- A validated `TaskCreate` value (`models/task.py`, class `TaskCreate`). -/
structure TaskCreate where
  title : String
  description : Option String
  completed : Bool
deriving DecidableEq, Repr

/-- Pydantic validation of the request body against `TaskCreate`:
`title` is the only required field, and any string value (including `""`)
passes; absent `description` defaults to `None`, absent `completed`
defaults to `False`. -/
def validateTaskCreate (body : TaskCreateBody) : Except ApiError TaskCreate :=
  match body.title with
  | none => .error .validationErr
  | some t =>
      .ok { title := t
            description := body.description.getD none
            completed := body.completed.getD false }

/-- `TaskUpdate` schema (`models/task.py`): all fields optional; a `none`
here models a field absent from the request body (Pydantic
`model_dump(exclude_unset=True)` drops it). -/
structure TaskUpdate where
  title : Option String
  description : Option (Option String)
  completed : Option Bool
deriving DecidableEq, Repr

/-- The ownership guard repeated at the top of every task endpoint
(`routes/tasks.py`: `if user_id != current_user_id: raise 403`), as the
spec's `authorize(raw_token, path_user_id)` step: exact string comparison
of the path `user_id` with the token subject. -/
def authorize (current_user_id user_id : String) : Except ApiError String :=
  if user_id ≠ current_user_id then .error .forbidden
  else .ok current_user_id

/-- `session.get(Task, task_id)`: primary-key lookup in the store. -/
def lookupTask (store : List Task) (task_id : Nat) : Option Task :=
  store.find? (fun t => t.id == task_id)

/-- `GET /api/{user_id}/tasks` (`routes/tasks.py`, `list_tasks`). -/
def list_tasks (user_id : String) (current_user_id : String)
    (store : List Task) : Except ApiError (List Task) :=
  if user_id ≠ current_user_id then .error .forbidden
  else .ok (store.filter (fun t => t.user_id == user_id))

/-- `POST /api/{user_id}/tasks` (`routes/tasks.py`, `create_task`).
FastAPI first validates the body against `TaskCreate`; the handler then
checks the ownership guard and persists
`Task(**task.model_dump(), user_id=user_id)`, the remaining fields taking
their model defaults (`id` the next autoincrement value, both timestamps
`utcnow`).  Returns the created task and the new store. -/
def create_task (user_id : String) (body : TaskCreateBody)
    (current_user_id : String) (store : List Task) (now nextId : Nat) :
    Except ApiError (Task × List Task) :=
  match validateTaskCreate body with
  | .error e => .error e
  | .ok task =>
      if user_id ≠ current_user_id then .error .forbidden
      else
        let db_task : Task :=
          { id := nextId
            user_id := user_id
            title := task.title
            description := task.description
            completed := task.completed
            created_at := now
            updated_at := now }
        .ok (db_task, store ++ [db_task])

/-- `GET /api/{user_id}/tasks/{task_id}` (`routes/tasks.py`, `get_task`):
ownership guard, then lookup, then `if not task or task.user_id != user_id`
→ 404. -/
def get_task (user_id : String) (task_id : Nat) (current_user_id : String)
    (store : List Task) : Except ApiError Task :=
  if user_id ≠ current_user_id then .error .forbidden
  else
    match lookupTask store task_id with
    | none => .error .notFound
    | some task =>
        if task.user_id ≠ user_id then .error .notFound
        else .ok task

/-- Field application loop of `update_task`
(`for field, value in update_data.items(): setattr(db_task, field, value)`)
followed by `db_task.updated_at = datetime.utcnow()`. -/
def applyUpdate (t : Task) (upd : TaskUpdate) (now : Nat) : Task :=
  { t with
    title := upd.title.getD t.title
    description := upd.description.getD t.description
    completed := upd.completed.getD t.completed
    updated_at := now }

/-- `PUT /api/{user_id}/tasks/{task_id}` (`routes/tasks.py`, `update_task`).
Returns the updated task and the new store. -/
def update_task (user_id : String) (task_id : Nat) (task_update : TaskUpdate)
    (current_user_id : String) (store : List Task) (now : Nat) :
    Except ApiError (Task × List Task) :=
  if user_id ≠ current_user_id then .error .forbidden
  else
    match lookupTask store task_id with
    | none => .error .notFound
    | some db_task =>
        if db_task.user_id ≠ user_id then .error .notFound
        else
          let t' := applyUpdate db_task task_update now
          .ok (t', store.map (fun x => if x.id == task_id then applyUpdate x task_update now else x))

/-- `DELETE /api/{user_id}/tasks/{task_id}` (`routes/tasks.py`,
`delete_task`).  Returns the new store (204 has no body). -/
def delete_task (user_id : String) (task_id : Nat) (current_user_id : String)
    (store : List Task) : Except ApiError (List Task) :=
  if user_id ≠ current_user_id then .error .forbidden
  else
    match lookupTask store task_id with
    | none => .error .notFound
    | some task =>
        if task.user_id ≠ user_id then .error .notFound
        else .ok (store.filter (fun x => !(x.id == task_id)))

/-- `db_task.completed = not db_task.completed; db_task.updated_at = utcnow()`
(`routes/tasks.py`, `toggle_complete` mutation step). -/
def toggleTask (t : Task) (now : Nat) : Task :=
  { t with completed := !t.completed, updated_at := now }

/-- `PATCH /api/{user_id}/tasks/{task_id}/complete` (`routes/tasks.py`,
`toggle_complete`).  Returns the toggled task and the new store. -/
def toggle_complete (user_id : String) (task_id : Nat)
    (current_user_id : String) (store : List Task) (now : Nat) :
    Except ApiError (Task × List Task) :=
  if user_id ≠ current_user_id then .error .forbidden
  else
    match lookupTask store task_id with
    | none => .error .notFound
    | some db_task =>
        if db_task.user_id ≠ user_id then .error .notFound
        else
          .ok (toggleTask db_task now,
               store.map (fun x => if x.id == task_id then toggleTask x now else x))

/-!
Password hashing (`utils/security.py`).  Bytes are naturals `< 256`;
`os.urandom` becomes an explicit salt argument; `hashlib.pbkdf2_hmac`
(an external library primitive, not repository code) is an abstract
function parameter `kdf : String → List Nat → List Nat` mapping a
password and a salt to the derived key bytes.  Base64 and the `$`-split
are modelled concretely since the verification logic depends on them.
-/

/-- The base64 alphabet: sextet value (0–63) to character. -/
def sextetToChar (n : Nat) : Char :=
  if n < 26 then Char.ofNat (65 + n)        -- A–Z
  else if n < 52 then Char.ofNat (71 + n)   -- a–z
  else if n < 62 then Char.ofNat (n - 4)    -- 0–9
  else if n = 62 then '+'
  else '/'

/-- Inverse of the base64 alphabet; `none` on a non-alphabet character
(including the padding character). -/
def charToSextet (c : Char) : Option Nat :=
  if 'A' ≤ c ∧ c ≤ 'Z' then some (c.toNat - 65)
  else if 'a' ≤ c ∧ c ≤ 'z' then some (c.toNat - 71)
  else if '0' ≤ c ∧ c ≤ '9' then some (c.toNat + 4)
  else if c = '+' then some 62
  else if c = '/' then some 63
  else none

/-- `base64.b64encode`: bytes to base64 characters, three bytes per group,
final partial group padded with `=`. -/
def encodeB64 : List Nat → List Char
  | [] => []
  | [a] => [sextetToChar (a / 4), sextetToChar (a % 4 * 16), '=', '=']
  | [a, b] => [sextetToChar (a / 4), sextetToChar (a % 4 * 16 + b / 16),
               sextetToChar (b % 16 * 4), '=']
  | a :: b :: c :: rest =>
      sextetToChar (a / 4) :: sextetToChar (a % 4 * 16 + b / 16) ::
      sextetToChar (b % 16 * 4 + c / 64) :: sextetToChar (c % 64) :: encodeB64 rest

/-- `base64.b64decode`: four characters per group, `=`-padding allowed only
in the final group; `none` (Python: `binascii.Error`, a `ValueError`) on a
length that is not a multiple of four or a non-alphabet character. -/
def decodeB64 : List Char → Option (List Nat)
  | [] => some []
  | c1 :: c2 :: c3 :: c4 :: rest =>
      if c3 = '=' ∧ c4 = '=' ∧ rest = [] then
        match charToSextet c1, charToSextet c2 with
        | some s1, some s2 => some [s1 * 4 + s2 / 16]
        | _, _ => none
      else if c4 = '=' ∧ rest = [] then
        match charToSextet c1, charToSextet c2, charToSextet c3 with
        | some s1, some s2, some s3 =>
            some [s1 * 4 + s2 / 16, s2 % 16 * 16 + s3 / 4]
        | _, _, _ => none
      else
        match charToSextet c1, charToSextet c2, charToSextet c3,
              charToSextet c4, decodeB64 rest with
        | some s1, some s2, some s3, some s4, some tail =>
            some ((s1 * 4 + s2 / 16) :: (s2 % 16 * 16 + s3 / 4) ::
                  (s3 % 4 * 64 + s4) :: tail)
        | _, _, _, _, _ => none
  | _ => none

/-- Python `str.split('$')`: split a character sequence on `$`. -/
def splitOnDollar : List Char → List (List Char)
  | [] => [[]]
  | c :: rest =>
      if c = '$' then [] :: splitOnDollar rest
      else
        match splitOnDollar rest with
        | [] => [[c]]
        | p :: ps => (c :: p) :: ps

/-- `hash_password` (`utils/security.py`): derive
`kdf(password, salt)` and return `base64(salt) ++ "$" ++ base64(hash)`.
The salt (`os.urandom(32)` in the source) is an explicit argument. -/
def hash_password (kdf : String → List Nat → List Nat)
    (salt : List Nat) (password : String) : List Char :=
  encodeB64 salt ++ '$' :: encodeB64 (kdf password salt)

/-- `verify_password` (`utils/security.py`): split the stored value on `$`
into exactly two parts (`salt_b64, hash_b64 = hashed_password.split('$')`
raises `ValueError` otherwise, caught and turned into `false`), decode
both parts (decode errors likewise caught), re-derive with the stored
salt, and compare. -/
def verify_password (kdf : String → List Nat → List Nat)
    (plain_password : String) (hashed_password : List Char) : Bool :=
  match splitOnDollar hashed_password with
  | [salt_b64, hash_b64] =>
      match decodeB64 salt_b64, decodeB64 hash_b64 with
      | some salt, some stored_hash => kdf plain_password salt == stored_hash
      | _, _ => false
  | _ => false

/-!
JWT issuance and validation (`routes/auth.py`, `middleware/auth.py`).
The HMAC-SHA256 signature (library primitive `jwt.encode`/`jwt.decode`)
is an abstract MAC parameter `mac : String → JwtPayload → Nat`; a token
is a payload together with its tag, and decoding checks the tag against
the shared secret, then expiry.
-/

/-- JWT claim set built by `create_jwt_token`: subject, issued-at, expiry. -/
structure JwtPayload where
  sub : Option String
  iat : Nat
  exp : Nat
deriving DecidableEq, Repr

/-- A compact signed token: payload plus signature tag. -/
structure Jwt where
  payload : JwtPayload
  sig : Nat
deriving DecidableEq, Repr

/-- Authentication errors of `get_current_user_id` (all surfaced as 401). -/
inductive AuthError where
  | noCredentials    -- no token in header or cookie
  | expired          -- jwt.ExpiredSignatureError
  | invalidToken     -- jwt.InvalidTokenError (bad signature / structure)
  | missingSubject   -- payload has no "sub" claim
deriving DecidableEq, Repr

/-- `create_jwt_token` (`routes/auth.py`): payload
`{sub: user_id, iat: now, exp: now + 7 days}` signed with the shared
secret under HS256. -/
def create_jwt_token (mac : String → JwtPayload → Nat) (secret : String)
    (now : Nat) (user_id : String) : Jwt :=
  let payload : JwtPayload :=
    { sub := some user_id, iat := now, exp := now + 7 * 24 * 60 * 60 }
  { payload := payload, sig := mac secret payload }

/-- `jwt.decode(token, secret, algorithms=["HS256"])`: verify the signature
against the shared secret, then reject an expired token. -/
def jwtDecode (mac : String → JwtPayload → Nat) (secret : String)
    (now : Nat) (token : Jwt) : Except AuthError JwtPayload :=
  if token.sig ≠ mac secret token.payload then .error .invalidToken
  else if token.payload.exp ≤ now then .error .expired
  else .ok token.payload

/-- `get_current_user_id` (`middleware/auth.py`): take the bearer token
from the `Authorization` header if present, else the
`better-auth.session_token` cookie; decode it and extract the `sub`
claim. -/
def get_current_user_id (mac : String → JwtPayload → Nat) (secret : String)
    (now : Nat) (headerToken cookieToken : Option Jwt) :
    Except AuthError String :=
  let token? : Option Jwt :=
    match headerToken with
    | some t => some t
    | none => cookieToken
  match token? with
  | none => .error .noCredentials
  | some token =>
      match jwtDecode mac secret now token with
      | .error e => .error e
      | .ok payload =>
          match payload.sub with
          | none => .error .missingSubject
          | some user_id => .ok user_id

/-! Helper lemmas about the base64 model and the `$`-split. -/

lemma charToSextet_sextetToChar {n : Nat} (h : n < 64) :
    charToSextet (sextetToChar n) = some n :=
  (by decide : ∀ m : Fin 64, charToSextet (sextetToChar m.val) = some m.val) ⟨n, h⟩

lemma sextetToChar_ne_eq {n : Nat} (h : n < 64) : sextetToChar n ≠ '=' :=
  (by decide : ∀ m : Fin 64, sextetToChar m.val ≠ '=') ⟨n, h⟩

lemma sextetToChar_ne_dollar {n : Nat} (h : n < 64) : sextetToChar n ≠ '$' :=
  (by decide : ∀ m : Fin 64, sextetToChar m.val ≠ '$') ⟨n, h⟩

lemma decodeB64_encodeB64 (bs : List Nat) (h : ∀ b ∈ bs, b < 256) :
    decodeB64 (encodeB64 bs) = some bs := by
  induction bs using encodeB64.induct with
  | case1 => rfl
  | case2 a =>
      have ha : a < 256 := h a (by simp)
      simp only [encodeB64, decodeB64]
      rw [if_pos (by simp)]
      rw [charToSextet_sextetToChar (by omega), charToSextet_sextetToChar (by omega)]
      simp only [Option.some.injEq, List.cons.injEq, and_true]
      omega
  | case3 a b =>
      have ha : a < 256 := h a (by simp)
      have hb : b < 256 := h b (by simp)
      simp only [encodeB64, decodeB64]
      rw [if_neg (by rintro ⟨h1, -⟩; exact sextetToChar_ne_eq (by omega) h1)]
      rw [if_pos (by simp)]
      rw [charToSextet_sextetToChar (by omega), charToSextet_sextetToChar (by omega),
          charToSextet_sextetToChar (by omega)]
      simp only [Option.some.injEq, List.cons.injEq, and_true]
      constructor <;> omega
  | case4 a b c rest ih =>
      have ha : a < 256 := h a (by simp)
      have hb : b < 256 := h b (by simp)
      have hc : c < 256 := h c (by simp)
      have hrest : ∀ x ∈ rest, x < 256 := fun x hx => h x (by simp [hx])
      simp only [encodeB64, decodeB64]
      rw [if_neg (by rintro ⟨h1, -⟩; exact sextetToChar_ne_eq (by omega) h1)]
      rw [if_neg (by rintro ⟨h1, -⟩; exact sextetToChar_ne_eq (by omega) h1)]
      rw [charToSextet_sextetToChar (by omega), charToSextet_sextetToChar (by omega),
          charToSextet_sextetToChar (by omega), charToSextet_sextetToChar (by omega),
          ih hrest]
      simp only [Option.some.injEq, List.cons.injEq, and_true]
      refine ⟨by omega, by omega, by omega⟩

lemma dollar_not_mem_encodeB64 (bs : List Nat) (h : ∀ b ∈ bs, b < 256) :
    '$' ∉ encodeB64 bs := by
  induction bs using encodeB64.induct with
  | case1 => simp [encodeB64]
  | case2 a =>
      have ha : a < 256 := h a (by simp)
      simp only [encodeB64, List.mem_cons, List.not_mem_nil, or_false]
      push_neg
      exact ⟨fun h1 => sextetToChar_ne_dollar (by omega) h1.symm,
             fun h1 => sextetToChar_ne_dollar (by omega) h1.symm,
             by decide, by decide⟩
  | case3 a b =>
      have ha : a < 256 := h a (by simp)
      have hb : b < 256 := h b (by simp)
      simp only [encodeB64, List.mem_cons, List.not_mem_nil, or_false]
      push_neg
      exact ⟨fun h1 => sextetToChar_ne_dollar (by omega) h1.symm,
             fun h1 => sextetToChar_ne_dollar (by omega) h1.symm,
             fun h1 => sextetToChar_ne_dollar (by omega) h1.symm,
             by decide⟩
  | case4 a b c rest ih =>
      have ha : a < 256 := h a (by simp)
      have hb : b < 256 := h b (by simp)
      have hc : c < 256 := h c (by simp)
      have hrest := ih (fun x hx => h x (by simp [hx]))
      simp only [encodeB64, List.mem_cons]
      push_neg
      exact ⟨fun h1 => sextetToChar_ne_dollar (by omega) h1.symm,
             fun h1 => sextetToChar_ne_dollar (by omega) h1.symm,
             fun h1 => sextetToChar_ne_dollar (by omega) h1.symm,
             fun h1 => sextetToChar_ne_dollar (by omega) h1.symm,
             hrest⟩

lemma splitOnDollar_no_dollar (xs : List Char) (h : '$' ∉ xs) :
    splitOnDollar xs = [xs] := by
  induction xs with
  | nil => rfl
  | cons c rest ih =>
      have hc : ¬ c = '$' := fun hc => h (by simp [hc])
      have hrest := ih (fun hm => h (List.mem_cons_of_mem _ hm))
      simp [splitOnDollar, hc, hrest]

lemma splitOnDollar_append (xs ys : List Char) (h : '$' ∉ xs) :
    splitOnDollar (xs ++ '$' :: ys) = xs :: splitOnDollar ys := by
  induction xs with
  | nil => simp [splitOnDollar]
  | cons c rest ih =>
      have hc : ¬ c = '$' := fun hc => h (by simp [hc])
      have ih' := ih (fun hm => h (List.mem_cons_of_mem _ hm))
      simp [splitOnDollar, hc, ih']

/-- Primary-key lookup stays on the updated record when every updated
record keeps its id: used for reasoning about a second request hitting the
store produced by an update/toggle. -/
lemma lookupTask_map_same (store : List Task) (tid : Nat) (t : Task)
    (f : Task → Task) (hf : ∀ x, (f x).id = x.id)
    (h : lookupTask store tid = some t) :
    lookupTask (store.map (fun x => if x.id == tid then f x else x)) tid
      = some (f t) := by
  induction store with
  | nil => simp [lookupTask] at h
  | cons y ys ih =>
      by_cases hy : (y.id == tid) = true
      · rw [lookupTask, @List.find?_cons_of_pos Task (fun x => x.id == tid) y ys hy] at h
        obtain rfl : y = t := by injection h
        rw [List.map_cons, if_pos hy, lookupTask,
            @List.find?_cons_of_pos Task (fun x => x.id == tid) (f y) _
              (by show ((f y).id == tid) = true; rw [hf y]; exact hy)]
      · rw [lookupTask, @List.find?_cons_of_neg Task (fun x => x.id == tid) y ys hy] at h
        rw [List.map_cons, if_neg hy, lookupTask,
            @List.find?_cons_of_neg Task (fun x => x.id == tid) y _ hy]
        exact ih h

/-- C5: for every password `P` and every salt `hash_password` may draw,
`verify_password P (hash_password salt P)` is true; and for a different
candidate `Q`, verification fails whenever the derived keys differ (the
"overwhelming probability" of the claim is exactly the absence of a KDF
collision between `Q` and `P` at this salt). -/
theorem c5_hash_verify_roundtrip (kdf : String → List Nat → List Nat)
    (P Q : String) (salt : List Nat)
    (hsalt : ∀ b ∈ salt, b < 256) (hkey : ∀ b ∈ kdf P salt, b < 256) :
    verify_password kdf P (hash_password kdf salt P) = true ∧
    (kdf Q salt ≠ kdf P salt →
      verify_password kdf Q (hash_password kdf salt P) = false) := by
  have hsplit : splitOnDollar (hash_password kdf salt P)
      = [encodeB64 salt, encodeB64 (kdf P salt)] := by
    rw [hash_password, splitOnDollar_append _ _ (dollar_not_mem_encodeB64 _ hsalt),
        splitOnDollar_no_dollar _ (dollar_not_mem_encodeB64 _ hkey)]
  constructor
  · simp only [verify_password, hsplit, decodeB64_encodeB64 _ hsalt,
      decodeB64_encodeB64 _ hkey]
    simp
  · intro hne
    simp only [verify_password, hsplit, decodeB64_encodeB64 _ hsalt,
      decodeB64_encodeB64 _ hkey]
    simp [hne]

/-- Witness for C5 at a concrete KDF, salt and password pair. -/
theorem c5_witness :
    verify_password (fun p _ => [p.length]) "pw"
        (hash_password (fun p _ => [p.length]) [7, 200] "pw") = true ∧
    verify_password (fun p _ => [p.length]) "p"
        (hash_password (fun p _ => [p.length]) [7, 200] "pw") = false := by
  have h := c5_hash_verify_roundtrip (fun p _ => [p.length]) "pw" "p" [7, 200]
      (by decide) (by decide)
  exact ⟨h.1, h.2 (by decide)⟩

/-- C6: on every stored value that is malformed — the `$`-split does not
produce exactly two parts, or a part fails base64 decoding —
`verify_password` returns `false` (it is a total function, so it never
raises). -/
theorem c6_verify_fail_closed (kdf : String → List Nat → List Nat)
    (plain : String) (stored : List Char)
    (h : ∀ a b, splitOnDollar stored = [a, b] →
        decodeB64 a = none ∨ decodeB64 b = none) :
    verify_password kdf plain stored = false := by
  rcases hs : splitOnDollar stored with _ | ⟨a, _ | ⟨b, _ | ⟨c, rest⟩⟩⟩
  · simp [verify_password, hs]
  · simp [verify_password, hs]
  · rcases h a b hs with h' | h' <;> simp [verify_password, hs, h']
  · simp [verify_password, hs]

/-- Witness for C6: a stored value whose first `$`-part is not valid
base64 (its length is not a multiple of four). -/
theorem c6_witness :
    verify_password (fun _ _ => [0]) "pw" ['a', '$', 'b'] = false := by
  refine c6_verify_fail_closed _ _ _ ?_
  intro a b hab
  simp [splitOnDollar] at hab
  obtain ⟨ha, hb⟩ := hab
  subst ha
  left
  rfl

/-- C7: validating a token issued for subject `S` with the same shared
secret and MAC yields `S`, provided validation happens before the expiry
time (issue time + 7 days). -/
theorem c7_issue_validate (mac : String → JwtPayload → Nat) (secret S : String)
    (tIssue tCheck : Nat) (cookieToken : Option Jwt)
    (h : tCheck < tIssue + 7 * 24 * 60 * 60) :
    get_current_user_id mac secret tCheck
        (some (create_jwt_token mac secret tIssue S)) cookieToken
      = .ok S := by
  simp only [get_current_user_id, create_jwt_token, jwtDecode]
  rw [if_neg (by simp)]
  rw [if_neg (by simpa using Nat.not_le.mpr h)]

/-- Witness for C7 at a concrete MAC, secret, subject and clock. -/
theorem c7_witness :
    (1 : Nat) < 0 + 7 * 24 * 60 * 60 ∧
    get_current_user_id (fun _ _ => 0) "secret" 1
        (some (create_jwt_token (fun _ _ => 0) "secret" 0 "alice")) none
      = .ok "alice" :=
  ⟨by decide, c7_issue_validate (fun _ _ => 0) "secret" "alice" 0 1 none (by decide)⟩

/-- C1 counterexample: a `POST` body with `title = ""` under a matching
token identity is NOT rejected with 422 — the request succeeds and a
record with the empty title is persisted (the store grows from `[]` to one
task), because `TaskCreate.title : str` places no minimum length on the
string. -/
theorem c1_counterexample :
    create_task "u" { title := some "", description := none, completed := none }
        "u" [] 0 1 =
      .ok ({ id := 1, user_id := "u", title := "", description := none,
             completed := false, created_at := 0, updated_at := 0 },
           [{ id := 1, user_id := "u", title := "", description := none,
              completed := false, created_at := 0, updated_at := 0 }]) := by
  rfl

/-- C1 (amended): for every authenticated matching request, a body whose
`title` is the empty string passes validation, returns the created task
and appends exactly one record to the store; a 422 `ValidationError`
occurs only when the `title` field is absent from the body, and then no
record is added. -/
theorem c1_empty_title_is_created (u : String) (d : Option (Option String))
    (c : Option Bool) (store : List Task) (now nextId : Nat) :
    create_task u { title := some "", description := d, completed := c }
        u store now nextId =
      .ok ({ id := nextId, user_id := u, title := "", description := d.getD none,
             completed := c.getD false, created_at := now, updated_at := now },
           store ++ [{ id := nextId, user_id := u, title := "",
                       description := d.getD none, completed := c.getD false,
                       created_at := now, updated_at := now }]) ∧
    create_task u { title := none, description := d, completed := c }
        u store now nextId = .error .validationErr ∧
    ApiError.validationErr.statusCode = 422 := by
  refine ⟨?_, ?_, rfl⟩ <;> simp [create_task, validateTaskCreate]

/-- C2: a `GET /api/{U}/tasks/{id}` request whose token subject equals the
path user `U`, hitting a task that exists but is owned by a different
user, yields 404 `NotFound` — not 403 and not an `.ok` carrying the task
body. -/
theorem c2_cross_owner_get_is_404 (U : String) (tid : Nat) (store : List Task)
    (t : Task) (hfind : lookupTask store tid = some t)
    (hown : t.user_id ≠ U) :
    get_task U tid U store = .error .notFound ∧
    ApiError.notFound.statusCode = 404 := by
  refine ⟨?_, rfl⟩
  simp [get_task, hfind, hown]

/-- Witness for C2: user `u` requests task 1, which exists and is owned by
`v`. -/
theorem c2_witness :
    get_task "u" 1 "u"
        [{ id := 1, user_id := "v", title := "x", description := none,
           completed := false, created_at := 0, updated_at := 0 }]
      = .error .notFound :=
  (c2_cross_owner_get_is_404 "u" 1
      [{ id := 1, user_id := "v", title := "x", description := none,
         completed := false, created_at := 0, updated_at := 0 }]
      { id := 1, user_id := "v", title := "x", description := none,
        completed := false, created_at := 0, updated_at := 0 }
      rfl (by decide)).1

/-- C3: the authorization step compares the token subject `A` with the
path user `B` by exact string equality: a mismatch fails with 403
`Forbidden`, a match succeeds returning `A`, and the operation then
proceeds acting as `A` (shown on `list_tasks`: the result is exactly the
tasks owned by `A`). -/
theorem c3_authorize_exact_match (A B : String) (store : List Task) :
    (A ≠ B → authorize A B = .error .forbidden ∧
             list_tasks B A store = .error .forbidden ∧
             ApiError.forbidden.statusCode = 403) ∧
    authorize A A = .ok A ∧
    list_tasks A A store = .ok (store.filter (fun t => t.user_id == A)) := by
  refine ⟨fun h => ⟨?_, ?_, rfl⟩, ?_, ?_⟩
  · have h' : B ≠ A := Ne.symm h
    simp [authorize, h']
  · have h' : B ≠ A := Ne.symm h
    simp [list_tasks, h']
  · simp [authorize]
  · simp [list_tasks]

/-- Witness for C3 at concrete identities. -/
theorem c3_witness :
    authorize "alice" "bob" = .error .forbidden ∧
    authorize "alice" "alice" = .ok "alice" :=
  ⟨((c3_authorize_exact_match "alice" "bob" []).1 (by decide)).1,
   (c3_authorize_exact_match "alice" "bob" []).2.1⟩

/-- C4 counterexample: `create_task` copies a supplied `completed` flag
into the persisted record (`Task(**task.model_dump(), ...)`), so a body
with `completed = true` persists `completed = true` — the flag is not
initialized to `false` regardless of the request body. -/
theorem c4_counterexample :
    create_task "u" { title := some "t", description := none, completed := some true }
        "u" [] 5 1 =
      .ok ({ id := 1, user_id := "u", title := "t", description := none,
             completed := true, created_at := 5, updated_at := 5 },
           [{ id := 1, user_id := "u", title := "t", description := none,
              completed := true, created_at := 5, updated_at := 5 }]) := by
  rfl

/-- C4 (amended): every successful creation persists a task whose owner is
the verified identity (the path user after the match check), whose
`created_at`/`updated_at` are the current time, and whose `completed` is
the value supplied in the body, defaulting to `false` when the body omits
it. -/
theorem c4_created_task_fields (u ttl : String) (d : Option (Option String))
    (c : Option Bool) (store : List Task) (now nextId : Nat) :
    create_task u { title := some ttl, description := d, completed := c }
        u store now nextId =
      .ok ({ id := nextId, user_id := u, title := ttl,
             description := d.getD none, completed := c.getD false,
             created_at := now, updated_at := now },
           store ++ [{ id := nextId, user_id := u, title := ttl,
                       description := d.getD none, completed := c.getD false,
                       created_at := now, updated_at := now }]) := by
  simp [create_task, validateTaskCreate]

/-- A successful toggle: matching identity, existing owned task. -/
lemma toggle_complete_ok (U : String) (tid : Nat) (store : List Task)
    (t : Task) (now : Nat)
    (hfind : lookupTask store tid = some t) (hown : t.user_id = U) :
    toggle_complete U tid U store now =
      .ok (toggleTask t now,
           store.map (fun x => if x.id == tid then toggleTask x now else x)) := by
  have hU : ¬ U ≠ U := fun h => h rfl
  simp only [toggle_complete, hU, if_false, hfind]
  rw [if_neg (fun h => h hown)]

/-- C8: toggling an existing owned task twice returns `completed` to its
original value; each single toggle flips `completed` and, whenever the
clock advanced since the last write, strictly increases `updated_at`. -/
theorem c8_toggle_twice (U : String) (tid n1 n2 : Nat) (store : List Task)
    (t : Task) (hfind : lookupTask store tid = some t) (hown : t.user_id = U)
    (hclock1 : t.updated_at < n1) (hclock2 : n1 < n2) :
    ∃ t1 s1 t2 s2,
      toggle_complete U tid U store n1 = .ok (t1, s1) ∧
      toggle_complete U tid U s1 n2 = .ok (t2, s2) ∧
      t1.completed = !t.completed ∧ t2.completed = t.completed ∧
      t.updated_at < t1.updated_at ∧ t1.updated_at < t2.updated_at := by
  have hfind2 : lookupTask
      (store.map (fun x => if x.id == tid then toggleTask x n1 else x)) tid
      = some (toggleTask t n1) := by
    simpa using lookupTask_map_same store tid t (fun x => toggleTask x n1)
      (fun _ => rfl) hfind
  have hown2 : (toggleTask t n1).user_id = U := hown
  refine ⟨toggleTask t n1,
          store.map (fun x => if x.id == tid then toggleTask x n1 else x),
          toggleTask (toggleTask t n1) n2,
          (store.map (fun x => if x.id == tid then toggleTask x n1 else x)).map
            (fun x => if x.id == tid then toggleTask x n2 else x),
          toggle_complete_ok U tid store t n1 hfind hown,
          toggle_complete_ok U tid _ (toggleTask t n1) n2 hfind2 hown2,
          ?_, ?_, ?_, ?_⟩
  · simp [toggleTask]
  · simp [toggleTask]
  · simpa [toggleTask] using hclock1
  · simpa [toggleTask] using hclock2

/-- Witness for C8: a concrete task toggled at times 1 and 2. -/
theorem c8_witness :
    ∃ t1 s1 t2 s2,
      toggle_complete "u" 1 "u"
          [{ id := 1, user_id := "u", title := "x", description := none,
             completed := false, created_at := 0, updated_at := 0 }] 1
        = .ok (t1, s1) ∧
      toggle_complete "u" 1 "u" s1 2 = .ok (t2, s2) ∧
      t1.completed = !false ∧ t2.completed = false ∧
      0 < t1.updated_at ∧ t1.updated_at < t2.updated_at :=
  c8_toggle_twice "u" 1 1 2
    [{ id := 1, user_id := "u", title := "x", description := none,
       completed := false, created_at := 0, updated_at := 0 }]
    { id := 1, user_id := "u", title := "x", description := none,
      completed := false, created_at := 0, updated_at := 0 }
    rfl rfl (by decide) (by decide)

/-- C9: a partial update changes only the supplied fields — each field the
body omits retains its prior value — while `updated_at` is set to the
current time on every update, whatever the supplied fields. -/
theorem c9_partial_update_frame (U : String) (tid now : Nat)
    (store : List Task) (t : Task) (upd : TaskUpdate)
    (hfind : lookupTask store tid = some t) (hown : t.user_id = U) :
    update_task U tid upd U store now =
      .ok (applyUpdate t upd now,
           store.map (fun x => if x.id == tid then applyUpdate x upd now else x)) ∧
    (applyUpdate t upd now).updated_at = now ∧
    (upd.title = none → (applyUpdate t upd now).title = t.title) ∧
    (upd.description = none →
      (applyUpdate t upd now).description = t.description) ∧
    (upd.completed = none → (applyUpdate t upd now).completed = t.completed) ∧
    (applyUpdate t upd now).title = upd.title.getD t.title ∧
    (applyUpdate t upd now).description = upd.description.getD t.description ∧
    (applyUpdate t upd now).completed = upd.completed.getD t.completed := by
  refine ⟨?_, rfl, ?_, ?_, ?_, rfl, rfl, rfl⟩
  · simp [update_task, hfind, hown]
  · intro h; simp [applyUpdate, h]
  · intro h; simp [applyUpdate, h]
  · intro h; simp [applyUpdate, h]

/-- Witness for C9: updating only the description of a concrete task
leaves its title and completion flag unchanged and refreshes
`updated_at`. -/
theorem c9_witness :
    update_task "u" 1 { title := none, description := some (some "x"),
                        completed := none } "u"
        [{ id := 1, user_id := "u", title := "keep", description := none,
           completed := true, created_at := 0, updated_at := 0 }] 9
      = .ok ({ id := 1, user_id := "u", title := "keep",
               description := some "x", completed := true,
               created_at := 0, updated_at := 9 },
             [{ id := 1, user_id := "u", title := "keep",
                description := some "x", completed := true,
                created_at := 0, updated_at := 9 }]) :=
  (c9_partial_update_frame "u" 1 9
    [{ id := 1, user_id := "u", title := "keep", description := none,
       completed := true, created_at := 0, updated_at := 0 }]
    { id := 1, user_id := "u", title := "keep", description := none,
      completed := true, created_at := 0, updated_at := 0 }
    { title := none, description := some (some "x"), completed := none }
    rfl rfl).1

/-- C10 (implicit): in every per-task endpoint the path-identity check runs
before the task lookup, so a token subject `A` addressing path user
`B ≠ A` receives 403 `Forbidden` even when the referenced task does not
exist in the store at all — 403 takes precedence over 404. -/
theorem c10_forbidden_precedes_lookup (A B : String) (tid : Nat)
    (store : List Task) (upd : TaskUpdate) (now : Nat)
    (hmismatch : A ≠ B) (_hmissing : lookupTask store tid = none) :
    get_task B tid A store = .error .forbidden ∧
    update_task B tid upd A store now = .error .forbidden ∧
    delete_task B tid A store = .error .forbidden ∧
    toggle_complete B tid A store now = .error .forbidden := by
  have h : B ≠ A := Ne.symm hmismatch
  exact ⟨by simp [get_task, h], by simp [update_task, h],
         by simp [delete_task, h], by simp [toggle_complete, h]⟩

/-- Witness for C10: an empty store (task 1 does not exist) with mismatched
identities. -/
theorem c10_witness :
    get_task "b" 1 "a" [] = .error .forbidden ∧
    update_task "b" 1 { title := none, description := none,
                        completed := none } "a" [] 0 = .error .forbidden ∧
    delete_task "b" 1 "a" [] = .error .forbidden ∧
    toggle_complete "b" 1 "a" [] 0 = .error .forbidden :=
  c10_forbidden_precedes_lookup "a" "b" 1 []
    { title := none, description := none, completed := none } 0
    (by decide) rfl

end TodoApp
